import Mathlib

set_option autoImplicit false

/-!
Shallow embedding of the Meraki dashboard backend (`meraki.py`): a Flask app
with four HTTP-client helpers (`get_organizations`, `get_networks`,
`get_network_devices`, `get_network_clients`) that return the parsed JSON body
on success and the sentinel `None` on any transport failure or 4xx/5xx status,
plus one aggregation endpoint `get_meraki_data` that chains them, selects the
first organization and network, tallies devices by model, and assembles the
dashboard response.

The upstream network is modelled by a `World` giving each endpoint's raw HTTP
outcome; the endpoint handler additionally returns the trace of API calls it
issued, so that claims about which calls are made are statable.
-/

namespace Meraki

/-- An organization record; the handler reads fields `id` and `name`. -/
structure Org where
  id : String
  name : String
deriving DecidableEq

/-- A network record; the handler reads fields `id` and `name`. -/
structure Net where
  id : String
  name : String
deriving DecidableEq

/-- A device record: a JSON object, read only via `.get` with a default
(mirroring Python's `device.get(key, default)`). -/
structure Device where
  fields : List (String × String)
deriving DecidableEq

/-- `device.get(key, default)`: first binding of `key`, else the default. -/
def Device.get (d : Device) (key dflt : String) : String :=
  match d.fields.find? (fun p => p.1 == key) with
  | some p => p.2
  | none => dflt

/-- A network client record; only the length of the clients list is ever used,
but the raw records are passed through in the response. -/
abbrev Client := List (String × String)

/-- Raw outcome of one HTTP request: a transport-level failure
(connection error, timeout) or a response with a status code and parsed body. -/
inductive HttpResult (α : Type) where
  | transportError
  | response (status : Nat) (body : α)
deriving DecidableEq

/-- The shared `try: requests.get(...); response.raise_for_status(); return
response.json() except RequestException: return None` pattern:
`raise_for_status` raises exactly for statuses in `[400, 600)`, and the
`except` converts the raised error (and any transport error) to `None`. -/
def requestOutcome {α : Type} : HttpResult α → Option α
  | HttpResult.transportError => none
  | HttpResult.response status body =>
      if 400 ≤ status ∧ status < 600 then none else some body

/-- The upstream API as seen by this process: what each GET would return. -/
structure World where
  organizationsHttp : HttpResult (List Org)
  networksHttp : String → HttpResult (List Net)
  devicesHttp : String → HttpResult (List Device)
  clientsHttp : String → Nat → HttpResult (List Client)

/-- Python truthiness of an optional string (`os.getenv` result):
`None` and `""` are falsy. -/
def pyFalsyStr : Option String → Bool
  | none => true
  | some s => s.isEmpty

/-- Lines 15-19: resolve `MERAKI_API_KEY` from the environment; when absent or
empty, log a warning and substitute the placeholder. Returns the key together
with the list of warnings printed. -/
def resolveApiKey (envVal : Option String) : String × List String :=
  if pyFalsyStr envVal then
    ("YOUR_MERAKI_API_KEY",
     ["WARNING: MERAKI_API_KEY environment variable not set. Please set it to your Meraki API key."])
  else
    (envVal.getD "", [])

/-- The fixed header set attached to every request, built from the resolved
API key. -/
def HEADERS (apiKey : String) : List (String × String) :=
  [("X-Cisco-Meraki-API-Key", apiKey), ("Content-Type", "application/json")]

/-- `get_organizations()`: GET /organizations. -/
def get_organizations (w : World) : Option (List Org) :=
  requestOutcome w.organizationsHttp

/-- `get_networks(organization_id)`: GET /organizations/{id}/networks. -/
def get_networks (w : World) (organization_id : String) : Option (List Net) :=
  requestOutcome (w.networksHttp organization_id)

/-- `get_network_devices(network_id)`: GET /networks/{id}/devices. -/
def get_network_devices (w : World) (network_id : String) : Option (List Device) :=
  requestOutcome (w.devicesHttp network_id)

/-- `get_network_clients(network_id, timespan)`: GET /networks/{id}/clients
with a `timespan` query parameter (the Python default is 3600; the endpoint
always passes 86400 explicitly). -/
def get_network_clients (w : World) (network_id : String) (timespan : Nat) :
    Option (List Client) :=
  requestOutcome (w.clientsHttp network_id timespan)

/-- Python truthiness of an optional list: `None` and `[]` are falsy,
so `if not xs:` fires exactly when `pyFalsy xs = true`. -/
def pyFalsy {α : Type} : Option (List α) → Bool
  | none => true
  | some l => l.isEmpty

/-- One step of `device_type_counts[k] = device_type_counts.get(k, 0) + 1` on
an insertion-ordered dict, modelled as an association list: an existing key
keeps its position, a new key is appended at the end. -/
def dictIncr (m : List (String × Nat)) (key : String) : List (String × Nat) :=
  match m with
  | [] => [(key, 1)]
  | (k, v) :: rest =>
      if k = key then (k, v + 1) :: rest else (k, v) :: dictIncr rest key

/-- The `for device in devices:` tally loop of lines 117-121, starting from
the empty dict. -/
def deviceTypeCountsOf (devices : List Device) : List (String × Nat) :=
  devices.foldl (fun m device => dictIncr m (device.get "model" "Unknown")) []

/-- The `device_type_counts` dict built from a bare list of model strings. -/
def countDict (l : List String) : List (String × Nat) :=
  l.foldl dictIncr []

/-- Keys of the dict, in insertion order (`list(d.keys())`). -/
def dkeys (m : List (String × Nat)) : List String :=
  m.map Prod.fst

/-- Values of the dict, in insertion order (`list(d.values())`). -/
def dvals (m : List (String × Nat)) : List Nat :=
  m.map Prod.snd

/-- `m.get(key, 0)`: the value bound to `key`, or 0 when absent. -/
def dictGet (m : List (String × Nat)) (key : String) : Nat :=
  match m with
  | [] => 0
  | (k, v) :: rest => if k = key then v else dictGet rest key

/-- Number of occurrences of `key` in a list of strings. -/
def countOcc (key : String) : List String → Nat
  | [] => 0
  | x :: xs => (if x = key then 1 else 0) + countOcc key xs

/-- Spec-side definition ("the set of distinct models in first-seen order"):
the distinct values of the list, each at its first occurrence, skipping values
already in `seen`. -/
def distinctFirstSeen (seen : List String) : List String → List String
  | [] => []
  | x :: xs =>
      if x ∈ seen then distinctFirstSeen seen xs
      else x :: distinctFirstSeen (x :: seen) xs

/-- The success payload assembled at lines 123-132. The raw `devices` and
`clients` entries hold exactly what the fetch returned: `none` (JSON null)
when the fetch was unavailable. -/
structure DashboardData where
  organizationName : String
  networkName : String
  deviceCount : Nat
  clientCount : Nat
  deviceTypes : List String
  deviceTypeCounts : List Nat
  devices : Option (List Device)
  clients : Option (List Client)
deriving DecidableEq

/-- A JSON response body: either `{"error": msg}` or the dashboard payload. -/
inductive Body where
  | errorBody (msg : String)
  | dataBody (data : DashboardData)
deriving DecidableEq

/-- A Flask response: body plus HTTP status (jsonify defaults to 200). -/
structure Response where
  body : Body
  status : Nat
deriving DecidableEq

/-- One upstream API call issued by the handler, with its arguments. -/
inductive ApiCall where
  | organizations
  | networks (organization_id : String)
  | devices (network_id : String)
  | clients (network_id : String) (timespan : Nat)
deriving DecidableEq

/-- Junk record used to model the (guarded, never-reached) `organizations[0]`
indexing of a list already known non-empty. -/
def defaultOrg : Org := ⟨"", ""⟩

/-- Junk record for the guarded `networks[0]` indexing. -/
def defaultNet : Net := ⟨"", ""⟩

/-- The `/api/meraki-data` endpoint handler (lines 81-134), returning the
response together with the trace of upstream API calls it issued. -/
def get_meraki_data (w : World) : Response × List ApiCall :=
  let organizations := get_organizations w
  if pyFalsy organizations then
    ({ body := Body.errorBody "Could not fetch organizations. Check API key and network connectivity.",
       status := 500 }, [ApiCall.organizations])
  else if pyFalsy organizations then
    ({ body := Body.errorBody "No Meraki organizations found.", status := 404 },
     [ApiCall.organizations])
  else
    let organization_id := ((organizations.getD []).headD defaultOrg).id
    let organization_name := ((organizations.getD []).headD defaultOrg).name
    let networks := get_networks w organization_id
    if pyFalsy networks then
      ({ body := Body.errorBody ("No networks found for organization " ++ organization_name ++ "."),
         status := 404 },
       [ApiCall.organizations, ApiCall.networks organization_id])
    else
      let network_id := ((networks.getD []).headD defaultNet).id
      let network_name := ((networks.getD []).headD defaultNet).name
      let devices := get_network_devices w network_id
      let clients := get_network_clients w network_id 86400
      let client_count := if pyFalsy clients then 0 else (clients.getD []).length
      let device_type_counts :=
        if pyFalsy devices then [] else deviceTypeCountsOf (devices.getD [])
      let dashboard_data : DashboardData :=
        { organizationName := organization_name
          networkName := network_name
          deviceCount := if pyFalsy devices then 0 else (devices.getD []).length
          clientCount := client_count
          deviceTypes := device_type_counts.map Prod.fst
          deviceTypeCounts := device_type_counts.map Prod.snd
          devices := devices
          clients := clients }
      ({ body := Body.dataBody dashboard_data, status := 200 },
       [ApiCall.organizations, ApiCall.networks organization_id,
        ApiCall.devices network_id, ApiCall.clients network_id 86400])

/-- The three-device example list of the spec:
`[{model:"MR33"}, {model:"MR33"}, {model:"MS220"}]`. -/
def exampleDevices : List Device :=
  [⟨[("model", "MR33")]⟩, ⟨[("model", "MR33")]⟩, ⟨[("model", "MS220")]⟩]

/-- A fully healthy upstream: one organization, one network, the three example
devices, and five clients. -/
def exampleWorld : World where
  organizationsHttp := HttpResult.response 200 [⟨"org1", "Org One"⟩]
  networksHttp := fun _ => HttpResult.response 200 [⟨"net1", "Net One"⟩]
  devicesHttp := fun _ => HttpResult.response 200 exampleDevices
  clientsHttp := fun _ _ => HttpResult.response 200
    [[("mac", "aa")], [("mac", "bb")], [("mac", "cc")], [("mac", "dd")], [("mac", "ee")]]

/-- An upstream where every request fails at the transport level. -/
def failWorld : World where
  organizationsHttp := HttpResult.transportError
  networksHttp := fun _ => HttpResult.transportError
  devicesHttp := fun _ => HttpResult.transportError
  clientsHttp := fun _ _ => HttpResult.transportError

/-- An upstream whose organizations request is rejected with a 404 status. -/
def http404World : World where
  organizationsHttp := HttpResult.response 404 []
  networksHttp := fun _ => HttpResult.response 404 []
  devicesHttp := fun _ => HttpResult.response 404 []
  clientsHttp := fun _ _ => HttpResult.response 404 []

/-- Organizations succeed but the networks request fails in transport. -/
def netsDownWorld : World where
  organizationsHttp := HttpResult.response 200 [⟨"org1", "Org One"⟩]
  networksHttp := fun _ => HttpResult.transportError
  devicesHttp := fun _ => HttpResult.transportError
  clientsHttp := fun _ _ => HttpResult.transportError

/-- Organization and network resolution succeed, the devices request fails in
transport, and the clients request returns one client. -/
def devicesDownWorld : World where
  organizationsHttp := HttpResult.response 200 [⟨"org1", "Org One"⟩]
  networksHttp := fun _ => HttpResult.response 200 [⟨"net1", "Net One"⟩]
  devicesHttp := fun _ => HttpResult.transportError
  clientsHttp := fun _ _ => HttpResult.response 200 [[("mac", "aa")]]

/-! ### Dictionary lemmas: the insertion-ordered tally dict -/

@[simp] lemma dkeys_nil : dkeys [] = [] := rfl

@[simp] lemma dkeys_cons (k : String) (v : Nat) (rest : List (String × Nat)) :
    dkeys ((k, v) :: rest) = k :: dkeys rest := rfl

@[simp] lemma dvals_nil : dvals [] = [] := rfl

@[simp] lemma dvals_cons (k : String) (v : Nat) (rest : List (String × Nat)) :
    dvals ((k, v) :: rest) = v :: dvals rest := rfl

lemma dkeys_dictIncr (m : List (String × Nat)) (key : String) :
    dkeys (dictIncr m key) = if key ∈ dkeys m then dkeys m else dkeys m ++ [key] := by
  induction m with
  | nil => simp [dictIncr]
  | cons p rest ih =>
    obtain ⟨k, v⟩ := p
    by_cases h : k = key
    · subst h
      simp [dictIncr]
    · have hne : key ≠ k := fun hk => h hk.symm
      rw [dictIncr, if_neg h, dkeys_cons, dkeys_cons, ih]
      by_cases hm : key ∈ dkeys rest
      · simp [hm, hne]
      · simp [hm, hne]

lemma dictGet_dictIncr_self (m : List (String × Nat)) (key : String) :
    dictGet (dictIncr m key) key = dictGet m key + 1 := by
  induction m with
  | nil => simp [dictIncr, dictGet]
  | cons p rest ih =>
    obtain ⟨k, v⟩ := p
    by_cases h : k = key
    · subst h
      simp [dictIncr, dictGet]
    · simp [dictIncr, dictGet, h, ih]

lemma dictGet_dictIncr_ne (m : List (String × Nat)) (key q : String) (h : q ≠ key) :
    dictGet (dictIncr m key) q = dictGet m q := by
  have h' : key ≠ q := fun hk => h hk.symm
  induction m with
  | nil => simp [dictIncr, dictGet, h']
  | cons p rest ih =>
    obtain ⟨k, v⟩ := p
    by_cases hk : k = key
    · subst hk
      simp [dictIncr, dictGet, h']
    · simp [dictIncr, dictGet, hk, ih]

lemma dvals_sum_dictIncr (m : List (String × Nat)) (key : String) :
    (dvals (dictIncr m key)).sum = (dvals m).sum + 1 := by
  induction m with
  | nil => simp [dictIncr]
  | cons p rest ih =>
    obtain ⟨k, v⟩ := p
    by_cases h : k = key
    · subst h
      simp only [dictIncr, eq_self_iff_true, ite_true, dvals_cons, List.sum_cons]
      omega
    · simp only [dictIncr, if_neg h, dvals_cons, List.sum_cons, ih]
      omega

lemma distinctFirstSeen_congr (l : List String) (s t : List String)
    (h : ∀ x, x ∈ s ↔ x ∈ t) : distinctFirstSeen s l = distinctFirstSeen t l := by
  induction l generalizing s t with
  | nil => rfl
  | cons x xs ih =>
    simp only [distinctFirstSeen]
    by_cases hx : x ∈ s
    · rw [if_pos hx, if_pos ((h x).1 hx)]
      exact ih s t h
    · rw [if_neg hx, if_neg (fun hx2 => hx ((h x).2 hx2))]
      congr 1
      exact ih (x :: s) (x :: t) (by intro y; simp [List.mem_cons, h y])

lemma foldl_dictIncr_dkeys (l : List String) (m : List (String × Nat)) :
    dkeys (l.foldl dictIncr m) = dkeys m ++ distinctFirstSeen (dkeys m) l := by
  induction l generalizing m with
  | nil => simp [distinctFirstSeen]
  | cons x xs ih =>
    rw [List.foldl_cons, ih (dictIncr m x), dkeys_dictIncr]
    by_cases hx : x ∈ dkeys m
    · rw [if_pos hx]
      simp only [distinctFirstSeen, if_pos hx]
    · rw [if_neg hx]
      have hiff : ∀ y, y ∈ dkeys m ++ [x] ↔ y ∈ x :: dkeys m := by
        intro y
        simp [or_comm]
      rw [distinctFirstSeen_congr xs (dkeys m ++ [x]) (x :: dkeys m) hiff]
      simp only [distinctFirstSeen, if_neg hx]
      simp

lemma foldl_dictIncr_dictGet (l : List String) (m : List (String × Nat)) (q : String) :
    dictGet (l.foldl dictIncr m) q = dictGet m q + countOcc q l := by
  induction l generalizing m with
  | nil => simp [countOcc]
  | cons x xs ih =>
    rw [List.foldl_cons, ih (dictIncr m x)]
    by_cases h : x = q
    · subst h
      rw [dictGet_dictIncr_self]
      simp only [countOcc, eq_self_iff_true, ite_true]
      omega
    · rw [dictGet_dictIncr_ne m x q (fun hq => h hq.symm)]
      simp only [countOcc, if_neg h]
      omega

lemma foldl_dictIncr_sum (l : List String) (m : List (String × Nat)) :
    (dvals (l.foldl dictIncr m)).sum = (dvals m).sum + l.length := by
  induction l generalizing m with
  | nil => simp
  | cons x xs ih =>
    rw [List.foldl_cons, ih (dictIncr m x), dvals_sum_dictIncr]
    simp only [List.length_cons]
    omega

lemma distinctFirstSeen_nodup (l : List String) (seen : List String) :
    (distinctFirstSeen seen l).Nodup ∧ ∀ x ∈ distinctFirstSeen seen l, x ∉ seen := by
  induction l generalizing seen with
  | nil => simp [distinctFirstSeen]
  | cons x xs ih =>
    by_cases hx : x ∈ seen
    · simpa [distinctFirstSeen, hx] using ih seen
    · have h2 := ih (x :: seen)
      simp only [distinctFirstSeen, if_neg hx]
      constructor
      · refine List.nodup_cons.2 ⟨?_, h2.1⟩
        intro hmem
        exact (h2.2 x hmem) (List.mem_cons_self x seen)
      · intro y hy
        rcases List.mem_cons.1 hy with h | h
        · subst h
          exact hx
        · intro hys
          exact (h2.2 y h) (List.mem_cons_of_mem x hys)

lemma dvals_eq_map_dictGet (m : List (String × Nat)) (h : (dkeys m).Nodup) :
    dvals m = (dkeys m).map (dictGet m) := by
  induction m with
  | nil => rfl
  | cons p rest ih =>
    obtain ⟨k, v⟩ := p
    rw [dkeys_cons] at h
    have hk : k ∉ dkeys rest := (List.nodup_cons.1 h).1
    have hrest : (dkeys rest).Nodup := (List.nodup_cons.1 h).2
    rw [dvals_cons, dkeys_cons, List.map_cons]
    congr 1
    · simp [dictGet]
    · rw [ih hrest]
      apply List.map_congr_left
      intro x hx
      have hxk : ¬ k = x := fun he => hk (he ▸ hx)
      simp [dictGet, hxk]

lemma countDict_keys (l : List String) : dkeys (countDict l) = distinctFirstSeen [] l := by
  rw [countDict, foldl_dictIncr_dkeys]
  simp

lemma countDict_nodup_keys (l : List String) : (dkeys (countDict l)).Nodup := by
  rw [countDict_keys]
  exact (distinctFirstSeen_nodup l []).1

lemma dictGet_countDict (l : List String) (q : String) :
    dictGet (countDict l) q = countOcc q l := by
  rw [countDict, foldl_dictIncr_dictGet]
  simp [dictGet]

lemma countDict_vals (l : List String) :
    dvals (countDict l) = (dkeys (countDict l)).map (fun q => countOcc q l) := by
  rw [dvals_eq_map_dictGet _ (countDict_nodup_keys l)]
  apply List.map_congr_left
  intro x hx
  exact dictGet_countDict l x

lemma countDict_sum (l : List String) : (dvals (countDict l)).sum = l.length := by
  rw [countDict, foldl_dictIncr_sum]
  simp

lemma countDict_map_fst (l : List String) :
    (countDict l).map Prod.fst = distinctFirstSeen [] l :=
  countDict_keys l

lemma countDict_map_snd (l : List String) :
    (countDict l).map Prod.snd = ((countDict l).map Prod.fst).map (fun q => countOcc q l) :=
  countDict_vals l

lemma countDict_snd_sum (l : List String) :
    ((countDict l).map Prod.snd).sum = l.length :=
  countDict_sum l

lemma deviceTypeCountsOf_eq_countDict (ds : List Device) :
    deviceTypeCountsOf ds = countDict (ds.map (fun d => d.get "model" "Unknown")) := by
  rw [deviceTypeCountsOf, countDict, List.foldl_map]

/-! ### Endpoint path lemmas -/

lemma pyFalsy_false_elim {α : Type} (o : Option (List α)) (h : pyFalsy o = false) :
    ∃ x xs, o = some (x :: xs) := by
  cases o with
  | none => simp [pyFalsy] at h
  | some l =>
    cases l with
    | nil => simp [pyFalsy] at h
    | cons a as => exact ⟨a, as, rfl⟩

lemma get_meraki_data_orgsFalsy (w : World)
    (h : pyFalsy (get_organizations w) = true) :
    get_meraki_data w =
      ({ body := Body.errorBody "Could not fetch organizations. Check API key and network connectivity.",
         status := 500 }, [ApiCall.organizations]) := by
  simp [get_meraki_data, h]

lemma get_meraki_data_netsFalsy (w : World) (org0 : Org) (orgs : List Org)
    (horgs : get_organizations w = some (org0 :: orgs))
    (hnets : pyFalsy (get_networks w org0.id) = true) :
    get_meraki_data w =
      ({ body := Body.errorBody ("No networks found for organization " ++ org0.name ++ "."),
         status := 404 },
       [ApiCall.organizations, ApiCall.networks org0.id]) := by
  simp [get_meraki_data, horgs, hnets]
  simp [pyFalsy]

lemma get_meraki_data_success (w : World) (org0 : Org) (orgs : List Org)
    (net0 : Net) (nets : List Net)
    (horgs : get_organizations w = some (org0 :: orgs))
    (hnets : get_networks w org0.id = some (net0 :: nets)) :
    get_meraki_data w =
      ({ body := Body.dataBody
          { organizationName := org0.name
            networkName := net0.name
            deviceCount :=
              if pyFalsy (get_network_devices w net0.id) then 0
              else ((get_network_devices w net0.id).getD []).length
            clientCount :=
              if pyFalsy (get_network_clients w net0.id 86400) then 0
              else ((get_network_clients w net0.id 86400).getD []).length
            deviceTypes :=
              (if pyFalsy (get_network_devices w net0.id) then []
               else deviceTypeCountsOf ((get_network_devices w net0.id).getD [])).map Prod.fst
            deviceTypeCounts :=
              (if pyFalsy (get_network_devices w net0.id) then []
               else deviceTypeCountsOf ((get_network_devices w net0.id).getD [])).map Prod.snd
            devices := get_network_devices w net0.id
            clients := get_network_clients w net0.id 86400 }
         status := 200 },
       [ApiCall.organizations, ApiCall.networks org0.id,
        ApiCall.devices net0.id, ApiCall.clients net0.id 86400]) := by
  simp [get_meraki_data, horgs, hnets, pyFalsy]

lemma pyFalsy_ite_counts (ds : List Device) :
    (if pyFalsy (some ds) then [] else deviceTypeCountsOf ((some ds : Option (List Device)).getD [])) =
      deviceTypeCountsOf ds := by
  cases ds with
  | nil => simp [pyFalsy, deviceTypeCountsOf]
  | cons d rest => simp [pyFalsy]

lemma pyFalsy_ite_length {α : Type} (l : List α) :
    (if pyFalsy (some l) then 0 else ((some l : Option (List α)).getD []).length) = l.length := by
  cases l <;> simp [pyFalsy]

lemma networks_msg_ne (name : String) :
    "No networks found for organization " ++ name ++ "." ≠ "No Meraki organizations found." := by
  intro h
  have hd := congrArg (fun s => s.data.take 4) h
  simp only [String.data_append, List.append_assoc] at hd
  rw [List.take_append_of_le_length
    (show (4 : Nat) ≤ "No networks found for organization ".data.length by decide)] at hd
  exact absurd hd (by decide)

lemma get_meraki_data_body_cases (w : World) :
    (get_meraki_data w).1.body =
        Body.errorBody "Could not fetch organizations. Check API key and network connectivity." ∨
      (∃ name : String,
        (get_meraki_data w).1.body =
          Body.errorBody ("No networks found for organization " ++ name ++ ".")) ∨
      (∃ data : DashboardData, (get_meraki_data w).1.body = Body.dataBody data) := by
  cases h1 : pyFalsy (get_organizations w) with
  | true =>
    left
    rw [get_meraki_data_orgsFalsy w h1]
  | false =>
    obtain ⟨org0, orgs, horgs⟩ := pyFalsy_false_elim _ h1
    cases h2 : pyFalsy (get_networks w org0.id) with
    | true =>
      right
      left
      refine ⟨org0.name, ?_⟩
      rw [get_meraki_data_netsFalsy w org0 orgs horgs h2]
    | false =>
      obtain ⟨net0, nets, hnets⟩ := pyFalsy_false_elim _ h2
      right
      right
      rw [get_meraki_data_success w org0 orgs net0 nets horgs hnets]
      exact ⟨_, rfl⟩

lemma requestOutcome_transport {α : Type} :
    requestOutcome (HttpResult.transportError : HttpResult α) = none := rfl

lemma requestOutcome_errStatus {α : Type} (s : Nat) (b : α) (h4 : 400 ≤ s) (h6 : s < 600) :
    requestOutcome (HttpResult.response s b) = none := by
  rw [requestOutcome, if_pos ⟨h4, h6⟩]

lemma requestOutcome_okStatus {α : Type} (s : Nat) (b : α) (h2 : 200 ≤ s) (h3 : s < 300) :
    requestOutcome (HttpResult.response s b) = some b := by
  have hn : ¬(400 ≤ s ∧ s < 600) := by omega
  rw [requestOutcome, if_neg hn]

/-! ### Claim theorems -/

/-- Claim C1: on the success path, the endpoint builds `deviceTypes` as the
distinct model values of the fetched devices list (using "Unknown" when the
model field is absent) in first-seen order, and `deviceTypeCounts` as the
parallel per-model occurrence counts; the witness instantiates this on the
list [{model:"MR33"}, {model:"MR33"}, {model:"MS220"}], giving
deviceTypes = ["MR33","MS220"] and deviceTypeCounts = [2,1]. -/
theorem c1_device_type_grouping (w : World) (org0 : Org) (orgs : List Org)
    (net0 : Net) (nets : List Net) (ds : List Device)
    (horgs : get_organizations w = some (org0 :: orgs))
    (hnets : get_networks w org0.id = some (net0 :: nets))
    (hdevs : get_network_devices w net0.id = some ds) :
    ∃ d : DashboardData, (get_meraki_data w).1.body = Body.dataBody d ∧
      d.deviceTypes = distinctFirstSeen [] (ds.map (fun dv => dv.get "model" "Unknown")) ∧
      d.deviceTypeCounts =
        d.deviceTypes.map (fun t => countOcc t (ds.map (fun dv => dv.get "model" "Unknown"))) := by
  rw [get_meraki_data_success w org0 orgs net0 nets horgs hnets, hdevs]
  refine ⟨_, rfl, ?_, ?_⟩
  · rw [pyFalsy_ite_counts ds, deviceTypeCountsOf_eq_countDict, countDict_map_fst]
  · rw [pyFalsy_ite_counts ds, deviceTypeCountsOf_eq_countDict, countDict_map_snd]

/-- Witness for C1: the spec's three-device example, evaluated through the
endpoint on a healthy upstream. -/
theorem c1_device_type_grouping_witness :
    ∃ d : DashboardData, (get_meraki_data exampleWorld).1.body = Body.dataBody d ∧
      d.deviceTypes = ["MR33", "MS220"] ∧ d.deviceTypeCounts = [2, 1] := by
  obtain ⟨d, hb, ht, hc⟩ :=
    c1_device_type_grouping exampleWorld ⟨"org1", "Org One"⟩ [] ⟨"net1", "Net One"⟩ []
      exampleDevices rfl rfl rfl
  refine ⟨d, hb, ?_, ?_⟩
  · rw [ht]
    decide
  · rw [hc, ht]
    decide

/-- Claim C2: every success response satisfies
`len(deviceTypes) == len(deviceTypeCounts)`, `deviceTypeCounts[i]` equals the
number of devices whose model is `deviceTypes[i]` (stated as the parallel-map
equation), and `sum(deviceTypeCounts) == deviceCount`. -/
theorem c2_snapshot_invariants (w : World) (org0 : Org) (orgs : List Org)
    (net0 : Net) (nets : List Net) (ds : List Device)
    (horgs : get_organizations w = some (org0 :: orgs))
    (hnets : get_networks w org0.id = some (net0 :: nets))
    (hdevs : get_network_devices w net0.id = some ds) :
    ∃ d : DashboardData, (get_meraki_data w).1.body = Body.dataBody d ∧
      d.deviceTypes.length = d.deviceTypeCounts.length ∧
      d.deviceTypeCounts =
        d.deviceTypes.map (fun t => countOcc t (ds.map (fun dv => dv.get "model" "Unknown"))) ∧
      d.deviceTypeCounts.sum = d.deviceCount := by
  rw [get_meraki_data_success w org0 orgs net0 nets horgs hnets, hdevs]
  refine ⟨_, rfl, ?_, ?_, ?_⟩
  · simp
  · rw [pyFalsy_ite_counts ds, deviceTypeCountsOf_eq_countDict, countDict_map_snd]
  · rw [pyFalsy_ite_counts ds, deviceTypeCountsOf_eq_countDict, pyFalsy_ite_length ds]
    have hs := countDict_snd_sum (ds.map (fun d => d.get "model" "Unknown"))
    rw [List.length_map] at hs
    exact hs

/-- Witness for C2 on the example upstream: three devices, two models. -/
theorem c2_snapshot_invariants_witness :
    ∃ d : DashboardData, (get_meraki_data exampleWorld).1.body = Body.dataBody d ∧
      d.deviceTypes.length = d.deviceTypeCounts.length ∧
      d.deviceTypeCounts =
        d.deviceTypes.map
          (fun t => countOcc t (exampleDevices.map (fun dv => dv.get "model" "Unknown"))) ∧
      d.deviceTypeCounts.sum = d.deviceCount :=
  c2_snapshot_invariants exampleWorld ⟨"org1", "Org One"⟩ [] ⟨"net1", "Net One"⟩ []
    exampleDevices rfl rfl rfl

/-- Claim C3: when the organizations fetch is unavailable or empty, the
endpoint answers HTTP 500 with the error message naming the API key and
connectivity, and issues no further upstream calls (the trace is exactly the
one organizations call). -/
theorem c3_orgs_unavailable_500 (w : World)
    (h : pyFalsy (get_organizations w) = true) :
    (get_meraki_data w).1.status = 500 ∧
    (get_meraki_data w).1.body =
      Body.errorBody "Could not fetch organizations. Check API key and network connectivity." ∧
    (get_meraki_data w).2 = [ApiCall.organizations] := by
  rw [get_meraki_data_orgsFalsy w h]
  exact ⟨rfl, rfl, rfl⟩

/-- Witness for C3: a transport failure on the organizations request. -/
theorem c3_orgs_unavailable_500_witness :
    (get_meraki_data failWorld).1.status = 500 ∧
    (get_meraki_data failWorld).1.body =
      Body.errorBody "Could not fetch organizations. Check API key and network connectivity." ∧
    (get_meraki_data failWorld).2 = [ApiCall.organizations] :=
  c3_orgs_unavailable_500 failWorld rfl

/-- Claim C4: when organizations succeed non-empty but the networks fetch for
the first organization is unavailable or empty, the endpoint answers
HTTP 404 with an error message naming that organization. -/
theorem c4_networks_unavailable_404 (w : World) (org0 : Org) (orgs : List Org)
    (horgs : get_organizations w = some (org0 :: orgs))
    (hnets : pyFalsy (get_networks w org0.id) = true) :
    (get_meraki_data w).1.status = 404 ∧
    (get_meraki_data w).1.body =
      Body.errorBody ("No networks found for organization " ++ org0.name ++ ".") := by
  rw [get_meraki_data_netsFalsy w org0 orgs horgs hnets]
  exact ⟨rfl, rfl⟩

/-- Witness for C4: organizations succeed, the networks request fails. -/
theorem c4_networks_unavailable_404_witness :
    (get_meraki_data netsDownWorld).1.status = 404 ∧
    (get_meraki_data netsDownWorld).1.body =
      Body.errorBody ("No networks found for organization " ++ "Org One" ++ ".") :=
  c4_networks_unavailable_404 netsDownWorld ⟨"org1", "Org One"⟩ [] rfl rfl

/-- Claim C5: when organization and network resolution succeed but the devices
fetch returns the sentinel, the endpoint still answers HTTP 200 with
`deviceCount = 0`, `deviceTypes = []`, and `clientCount` equal to the length
of the fetched clients list (0 when clients are also unavailable). -/
theorem c5_devices_unavailable_degrades (w : World) (org0 : Org) (orgs : List Org)
    (net0 : Net) (nets : List Net)
    (horgs : get_organizations w = some (org0 :: orgs))
    (hnets : get_networks w org0.id = some (net0 :: nets))
    (hdevs : get_network_devices w net0.id = none) :
    (get_meraki_data w).1.status = 200 ∧
    ∃ d : DashboardData, (get_meraki_data w).1.body = Body.dataBody d ∧
      d.deviceCount = 0 ∧ d.deviceTypes = [] ∧
      d.clientCount = (match get_network_clients w net0.id 86400 with
        | some cls => cls.length
        | none => 0) := by
  rw [get_meraki_data_success w org0 orgs net0 nets horgs hnets, hdevs]
  refine ⟨rfl, _, rfl, ?_, ?_, ?_⟩
  · simp [pyFalsy]
  · simp [pyFalsy]
  · cases hcl : get_network_clients w net0.id 86400 with
    | none => simp [pyFalsy]
    | some cls => cases cls <;> simp [pyFalsy]

/-- Witness for C5: devices request fails in transport, one client fetched. -/
theorem c5_devices_unavailable_degrades_witness :
    (get_meraki_data devicesDownWorld).1.status = 200 ∧
    ∃ d : DashboardData, (get_meraki_data devicesDownWorld).1.body = Body.dataBody d ∧
      d.deviceCount = 0 ∧ d.deviceTypes = [] ∧
      d.clientCount = (match get_network_clients devicesDownWorld "net1" 86400 with
        | some cls => cls.length
        | none => 0) :=
  c5_devices_unavailable_degrades devicesDownWorld ⟨"org1", "Org One"⟩ [] ⟨"net1", "Net One"⟩ []
    rfl rfl rfl

/-- Claim C6: every API client operation turns a transport failure or a
4xx/5xx status into the sentinel `none` rather than a thrown error, and
returns the parsed body on a 2xx status; each of the four operations is
exactly this contract applied to its endpoint. -/
theorem c6_client_error_contract :
    (∀ (α : Type), requestOutcome (HttpResult.transportError : HttpResult α) = none) ∧
    (∀ (α : Type) (s : Nat) (b : α), 400 ≤ s → s < 600 →
      requestOutcome (HttpResult.response s b) = none) ∧
    (∀ (α : Type) (s : Nat) (b : α), 200 ≤ s → s < 300 →
      requestOutcome (HttpResult.response s b) = some b) ∧
    (∀ w : World, get_organizations w = requestOutcome w.organizationsHttp) ∧
    (∀ (w : World) (oid : String), get_networks w oid = requestOutcome (w.networksHttp oid)) ∧
    (∀ (w : World) (nid : String),
      get_network_devices w nid = requestOutcome (w.devicesHttp nid)) ∧
    (∀ (w : World) (nid : String) (ts : Nat),
      get_network_clients w nid ts = requestOutcome (w.clientsHttp nid ts)) :=
  ⟨fun _ => requestOutcome_transport,
   fun _ s b h4 h6 => requestOutcome_errStatus s b h4 h6,
   fun _ s b h2 h3 => requestOutcome_okStatus s b h2 h3,
   fun _ => rfl, fun _ _ => rfl, fun _ _ => rfl, fun _ _ _ => rfl⟩

/-- Witness for C6: a transport failure, a 404 status, and a 200 status on
the organizations operation. -/
theorem c6_client_error_contract_witness :
    get_organizations failWorld = none ∧
    get_organizations http404World = none ∧
    get_organizations exampleWorld = some [⟨"org1", "Org One"⟩] := by
  refine ⟨?_, ?_, ?_⟩
  · rw [c6_client_error_contract.2.2.2.1 failWorld]
    exact c6_client_error_contract.1 _
  · rw [c6_client_error_contract.2.2.2.1 http404World]
    exact c6_client_error_contract.2.1 _ 404 _ (by decide) (by decide)
  · rw [c6_client_error_contract.2.2.2.1 exampleWorld]
    exact c6_client_error_contract.2.2.1 _ 200 _ (by decide) (by decide)

/-- Claim C7: on the success path the handler calls the clients fetch with
timespan 86400 (visible in the call trace), and the response's `clientCount`
equals the length of whatever clients list came back, regardless of its
contents. -/
theorem c7_clients_timespan_and_count (w : World) (org0 : Org) (orgs : List Org)
    (net0 : Net) (nets : List Net) (cls : List Client)
    (horgs : get_organizations w = some (org0 :: orgs))
    (hnets : get_networks w org0.id = some (net0 :: nets))
    (hcls : get_network_clients w net0.id 86400 = some cls) :
    (get_meraki_data w).2 =
      [ApiCall.organizations, ApiCall.networks org0.id,
       ApiCall.devices net0.id, ApiCall.clients net0.id 86400] ∧
    ∃ d : DashboardData, (get_meraki_data w).1.body = Body.dataBody d ∧
      d.clientCount = cls.length := by
  rw [get_meraki_data_success w org0 orgs net0 nets horgs hnets, hcls]
  exact ⟨rfl, _, rfl, pyFalsy_ite_length cls⟩

/-- Witness for C7: five clients on the example upstream give
`clientCount = 5`, and the trace shows the 86400-second timespan. -/
theorem c7_clients_timespan_and_count_witness :
    (get_meraki_data exampleWorld).2 =
      [ApiCall.organizations, ApiCall.networks "org1",
       ApiCall.devices "net1", ApiCall.clients "net1" 86400] ∧
    ∃ d : DashboardData, (get_meraki_data exampleWorld).1.body = Body.dataBody d ∧
      d.clientCount = 5 :=
  c7_clients_timespan_and_count exampleWorld ⟨"org1", "Org One"⟩ [] ⟨"net1", "Net One"⟩ []
    [[("mac", "aa")], [("mac", "bb")], [("mac", "cc")], [("mac", "dd")], [("mac", "ee")]]
    rfl rfl rfl

/-- Claim C8 counterexample: with organization and network resolution
succeeding and the devices fetch unavailable, the 200 response's raw
`devices` field is the null sentinel, not the empty list the claim asserts. -/
theorem c8_counterexample :
    (get_meraki_data devicesDownWorld).1.status = 200 ∧
    ∃ d : DashboardData, (get_meraki_data devicesDownWorld).1.body = Body.dataBody d ∧
      d.devices = none ∧ d.devices ≠ some [] := by
  rw [get_meraki_data_success devicesDownWorld ⟨"org1", "Org One"⟩ [] ⟨"net1", "Net One"⟩ []
    rfl rfl]
  refine ⟨rfl, _, rfl, ?_, ?_⟩
  · decide
  · decide

/-- Claim C8 (amended): when organization and network resolution succeed, the
HTTP 200 response's raw `devices` and `clients` fields hold exactly what the
fetches returned - the fetched list on success and the null sentinel (not an
empty list) when unavailable - while the derived `deviceCount` and
`clientCount` treat an unavailable fetch as an empty list. -/
theorem c8_raw_passthrough (w : World) (org0 : Org) (orgs : List Org)
    (net0 : Net) (nets : List Net)
    (horgs : get_organizations w = some (org0 :: orgs))
    (hnets : get_networks w org0.id = some (net0 :: nets)) :
    (get_meraki_data w).1.status = 200 ∧
    ∃ d : DashboardData, (get_meraki_data w).1.body = Body.dataBody d ∧
      d.devices = get_network_devices w net0.id ∧
      d.clients = get_network_clients w net0.id 86400 ∧
      d.deviceCount = (match get_network_devices w net0.id with
        | some ds => ds.length
        | none => 0) ∧
      d.clientCount = (match get_network_clients w net0.id 86400 with
        | some cls => cls.length
        | none => 0) := by
  rw [get_meraki_data_success w org0 orgs net0 nets horgs hnets]
  refine ⟨rfl, _, rfl, rfl, rfl, ?_, ?_⟩
  · cases hd : get_network_devices w net0.id with
    | none => simp [pyFalsy]
    | some ds => cases ds <;> simp [pyFalsy]
  · cases hc : get_network_clients w net0.id 86400 with
    | none => simp [pyFalsy]
    | some cls => cases cls <;> simp [pyFalsy]

/-- Witness for the amended C8, on the upstream whose devices request fails. -/
theorem c8_raw_passthrough_witness :
    (get_meraki_data devicesDownWorld).1.status = 200 ∧
    ∃ d : DashboardData, (get_meraki_data devicesDownWorld).1.body = Body.dataBody d ∧
      d.devices = get_network_devices devicesDownWorld "net1" ∧
      d.clients = get_network_clients devicesDownWorld "net1" 86400 ∧
      d.deviceCount = (match get_network_devices devicesDownWorld "net1" with
        | some ds => ds.length
        | none => 0) ∧
      d.clientCount = (match get_network_clients devicesDownWorld "net1" 86400 with
        | some cls => cls.length
        | none => 0) :=
  c8_raw_passthrough devicesDownWorld ⟨"org1", "Org One"⟩ [] ⟨"net1", "Net One"⟩ [] rfl rfl

/-- Claim C9: when the `MERAKI_API_KEY` environment variable is absent or
empty, a warning is printed and the placeholder "YOUR_MERAKI_API_KEY" is used
as the API key in the request headers. -/
theorem c9_api_key_placeholder (envVal : Option String)
    (h : pyFalsyStr envVal = true) :
    resolveApiKey envVal =
      ("YOUR_MERAKI_API_KEY",
       ["WARNING: MERAKI_API_KEY environment variable not set. Please set it to your Meraki API key."]) ∧
    HEADERS (resolveApiKey envVal).1 =
      [("X-Cisco-Meraki-API-Key", "YOUR_MERAKI_API_KEY"),
       ("Content-Type", "application/json")] := by
  rw [resolveApiKey, if_pos h]
  exact ⟨rfl, rfl⟩

/-- Witness for C9: the environment variable is absent. -/
theorem c9_api_key_placeholder_witness :
    pyFalsyStr none = true ∧
    resolveApiKey none =
      ("YOUR_MERAKI_API_KEY",
       ["WARNING: MERAKI_API_KEY environment variable not set. Please set it to your Meraki API key."]) ∧
    HEADERS (resolveApiKey none).1 =
      [("X-Cisco-Meraki-API-Key", "YOUR_MERAKI_API_KEY"),
       ("Content-Type", "application/json")] :=
  ⟨rfl, (c9_api_key_placeholder none rfl).1, (c9_api_key_placeholder none rfl).2⟩

/-- Claim C10: the handler's second organizations check is unreachable - no
world makes the endpoint answer with the "No Meraki organizations found."
body - and the empty-organizations case is indistinguishable from the
fetch-failure case: any two worlds whose organizations fetch is falsy
(sentinel or empty) produce identical responses and call traces. -/
theorem c10_second_check_unreachable :
    (∀ w : World,
      (get_meraki_data w).1.body ≠ Body.errorBody "No Meraki organizations found.") ∧
    (∀ w w' : World, pyFalsy (get_organizations w) = true →
      pyFalsy (get_organizations w') = true →
      get_meraki_data w = get_meraki_data w') := by
  constructor
  · intro w hw
    rcases get_meraki_data_body_cases w with h | ⟨name, h⟩ | ⟨data, h⟩
    · rw [hw] at h
      exact absurd (Body.errorBody.inj h) (by decide)
    · rw [hw] at h
      exact absurd (Body.errorBody.inj h).symm (networks_msg_ne name)
    · rw [hw] at h
      exact Body.noConfusion h
  · intro w w' hw hw'
    rw [get_meraki_data_orgsFalsy w hw, get_meraki_data_orgsFalsy w' hw']

/-- Witness for C10: a transport failure and an empty-via-404 organizations
fetch produce the same response, and neither matches the dead branch's body. -/
theorem c10_second_check_unreachable_witness :
    (get_meraki_data failWorld).1.body ≠ Body.errorBody "No Meraki organizations found." ∧
    get_meraki_data failWorld = get_meraki_data http404World :=
  ⟨c10_second_check_unreachable.1 failWorld,
   c10_second_check_unreachable.2 failWorld http404World rfl rfl⟩

end Meraki
